import Mathlib

/-!
Verification of the source-connection layer of the pipeline scheduling
core: the Gerrit event connector, the dependency-resolution engine of
GerritConnection, the Gerrit HTTP/SSH reporter, the executor build-request
queue, and the generic source retry helper.  Each definition is a shallow
embedding of the corresponding Python function; theorems settle the frozen
claims about them.
-/

namespace Zuul

/-! ## Gerrit event connector: settling delay

Embedding of GerritEventConnector (zuul/driver/gerrit/gerritconnection.py).
Wall-clock times are modelled as rationals (seconds). -/

namespace GerritEventConnector

/-- The uniform settling delay, `GerritEventConnector.delay = 10.0`. -/
def delay : ℚ := 10

/-- The sleep computed by `_handleEvent`:
`delay = max((timestamp + self.delay) - now, 0.0)`. -/
def handleEventDelay (timestamp now : ℚ) : ℚ :=
  max ((timestamp + delay) - now) 0

/-- The wall-clock instant at which the derived trigger event becomes
visible to the scheduler: `_handleEvent` sleeps for `handleEventDelay`
starting at `now` before constructing and forwarding the trigger event. -/
def deliveryTime (timestamp now : ℚ) : ℚ :=
  now + handleEventDelay timestamp now

end GerritEventConnector

/-! ## Gerrit reporter: human comment size limit

Embedding of the message truncation performed by `review_ssh` and
`review_http` (zuul/driver/gerrit/gerritconnection.py).  A message is a
list of Unicode code points; `utf8CharLen` is the number of bytes of the
UTF-8 encoding of one code point, so `utf8Len` is Python
`len(message.encode(utf8))` while `List.take` is Python character
slicing `message[:n]`. -/

/-- Number of bytes of the UTF-8 encoding of one Unicode code point. -/
def utf8CharLen (c : ℕ) : ℕ :=
  if c < 0x80 then 1 else if c < 0x800 then 2 else if c < 0x10000 then 3 else 4

/-- Python `len(message.encode(utf8))` for a message given as a list of
code points. -/
def utf8Len (message : List ℕ) : ℕ :=
  (message.map utf8CharLen).sum

/-- `GERRIT_HUMAN_MESSAGE_LIMIT = 16056`, int((16 << 10) * 0.98). -/
def GERRIT_HUMAN_MESSAGE_LIMIT : ℕ := 16056

/-- The code points of the marker appended on truncation,
`... (truncated)` (15 ASCII characters). -/
def truncationMarker : List ℕ :=
  [46, 46, 46, 32, 40, 116, 114, 117, 110, 99, 97, 116, 101, 100, 41]

/-- The truncation step shared verbatim by `review_ssh` (phase 1) and
`review_http`: when `len(message.encode(utf8)) >=
GERRIT_HUMAN_MESSAGE_LIMIT`, the delivered message becomes
`message[:GERRIT_HUMAN_MESSAGE_LIMIT - 20]` followed by the marker; note
the slice counts characters, not bytes. -/
def applyGerritMessageLimit (message : List ℕ) : List ℕ :=
  if GERRIT_HUMAN_MESSAGE_LIMIT ≤ utf8Len message then
    message.take (GERRIT_HUMAN_MESSAGE_LIMIT - 20) ++ truncationMarker
  else
    message

/-! ## Gerrit HTTP client: status classification

Embedding of `GerritConnection.get` and `GerritConnection.post`: the
response status decides whether the call returns or which exception it
raises, with no retry inside either function. -/

/-- How `GerritConnection.get` treats one HTTP response: status 409
raises HTTPConflictException, any other status other than 200 raises a
generic Exception, otherwise the body is returned. -/
inductive HttpGetResult
  | ok
  | conflictExc
  | genericExc
deriving DecidableEq

/-- The status check in `GerritConnection.get`. -/
def classifyGet (status : ℕ) : HttpGetResult :=
  if status = 409 then .conflictExc
  else if status ≠ 200 then .genericExc
  else .ok

/-- How `GerritConnection.post` treats one HTTP response: status 409
raises HTTPConflictException, status 400 raises HTTPBadRequestException,
any other status other than 200 raises a generic Exception. -/
inductive HttpPostResult
  | ok
  | conflictExc
  | badRequestExc
  | genericExc
deriving DecidableEq

/-- The status checks in `GerritConnection.post`. -/
def classifyPost (status : ℕ) : HttpPostResult :=
  if status = 409 then .conflictExc
  else if status = 400 then .badRequestExc
  else if status ≠ 200 then .genericExc
  else .ok

/-! ## Gerrit reporter retry loops

Embedding of the `for x in range(1, 4)` loops around `post` in
`review_http` (the phase-1 review post and the phase-2 submit) and in
`report_checks`. -/

/-- Outcome of one `post` call inside a reporter retry loop, i.e. which
except clause (if any) it lands in. -/
inductive PostOutcome
  | ok
  | conflict
  | badRequest
  | err
deriving DecidableEq

/-- How a reporter retry loop finished.  Every exception class is caught
inside the loop body, so the loop always returns normally; no exception
propagates to the caller. -/
inductive LoopExit
  | success
  | conflictBreak
  | badRequestBreak
  | exhausted
deriving DecidableEq

/-- Observable behaviour of one reporter retry loop: how many `post`
calls were made, the seconds slept between them, and how the loop
finished. -/
structure LoopResult where
  attempts : ℕ
  sleeps : List ℕ
  exit : LoopExit
deriving DecidableEq

/-- `submit_retry_backoff = 10` (class attribute of GerritConnection). -/
def submit_retry_backoff : ℕ := 10

/-- One reporter retry loop over the remaining values of `x`: success,
HTTPConflictException and HTTPBadRequestException all break out of the
loop; any other exception is logged and followed by
`time.sleep(x * submit_retry_backoff)` before the next iteration (the
sleep also runs after the last failed attempt). -/
def reviewRetryGo (outcome : ℕ → PostOutcome) (backoff : ℕ) :
    List ℕ → LoopResult
  | [] => ⟨0, [], .exhausted⟩
  | x :: rest =>
    match outcome x with
    | .ok => ⟨1, [], .success⟩
    | .conflict => ⟨1, [], .conflictBreak⟩
    | .badRequest => ⟨1, [], .badRequestBreak⟩
    | .err =>
      let r := reviewRetryGo outcome backoff rest
      ⟨r.attempts + 1, x * backoff :: r.sleeps, r.exit⟩

/-- A reporter retry loop `for x in range(1, 4)`, as in `review_http`
and `report_checks`. -/
def reviewRetryLoop (outcome : ℕ → PostOutcome) (backoff : ℕ) : LoopResult :=
  reviewRetryGo outcome backoff [1, 2, 3]

/-! ## GerritConnection.queryChange retry loop -/

/-- The retry loop of `GerritConnection.queryChange` over the remaining
values of `attempt`: a successful query returns its data immediately; on
an exception the code re-raises only when `attempt >= 3` (which is never
true for the attempts 0, 1, 2 produced by `range(3)`) and otherwise
sleeps 1 second; when every attempt fails the loop ends and the function
implicitly returns None.  The first component is `Except.error` on a
re-raise, `Except.ok none` for the implicit fall-through return and
`Except.ok (some d)` on success; the second lists the sleeps. -/
def queryChangeGo {α : Type} (outcome : ℕ → Option α) :
    List ℕ → Except Unit (Option α) × List ℕ
  | [] => (.ok none, [])
  | a :: rest =>
    match outcome a with
    | some d => (.ok (some d), [])
    | none =>
      if a ≥ 3 then (.error (), [])
      else
        let r := queryChangeGo outcome rest
        (r.1, 1 :: r.2)

/-- `GerritConnection.queryChange`: `for attempt in range(3)` around one
source query, whose outcome per attempt is given by `outcome`. -/
def queryChange {α : Type} (outcome : ℕ → Option α) :
    Except Unit (Option α) × List ℕ :=
  queryChangeGo outcome [0, 1, 2]

/-! ## BaseSource.getChangeByURLWithRetry (zuul/source/init) -/

/-- The loop body of `getChangeByURLWithRetry` over the remaining values
of `x`: each iteration calls `getChangeByURL` and assigns `dep` (there
is no break, so a success does not end the loop); on an exception, when
`x != 2` it logs and sleeps 1 second, otherwise it re-raises; after the
loop the current value of `dep` is returned.  Result components:
(returned value or propagated exception, number of `getChangeByURL`
invocations, sleeps). -/
def sourceRetryGo {α : Type} (fetch : ℕ → Except Unit α) (dep : Option α) :
    List ℕ → Except Unit (Option α) × ℕ × List ℕ
  | [] => (.ok dep, 0, [])
  | x :: rest =>
    match fetch x with
    | .ok v =>
      let r := sourceRetryGo fetch (some v) rest
      (r.1, r.2.1 + 1, r.2.2)
    | .error _ =>
      if x ≠ 2 then
        let r := sourceRetryGo fetch dep rest
        (r.1, r.2.1 + 1, 1 :: r.2.2)
      else
        (.error (), 1, [])

/-- `BaseSource.getChangeByURLWithRetry`: `for x in range(3)` with the
loop body above, starting with `dep` unassigned. -/
def getChangeByURLWithRetry {α : Type} (fetch : ℕ → Except Unit α) :
    Except Unit (Option α) × ℕ × List ℕ :=
  sourceRetryGo fetch none [0, 1, 2]

/-! ## GerritConnection dependency resolution

Embedding of `GerritConnection._updateChange` (its history and
max_dependencies checks) and `GerritConnection._updateChangeDependencies`
(the aggregation of the four dependency lists).  A change reference
(`ChangeKey.reference` of a key built from a change number and patchset)
is modelled by the pair (number, patchset) that determines it. -/

/-- The fields of a fetched dependency change that
`_updateChangeDependencies` inspects (Python attributes `open`,
`is_merged`, `is_current_patchset` of GerritChange). -/
structure DepChange where
  isOpen : Bool
  is_merged : Bool
  is_current_patchset : Bool
deriving DecidableEq

/-- Outcome of a recursive `_getChange` call for one dependency target:
the fetched change, a GerritEventProcessingException, or any other
exception. -/
inductive DepFetch
  | ok (dep : DepChange)
  | procExc
  | exc
deriving DecidableEq

/-- Exceptions `_updateChangeDependencies` can propagate: a re-raised
GerritEventProcessingException, or any other exception escaping a
region without a try clause. -/
inductive GerritError
  | processing
  | generic
deriving DecidableEq

/-- The aggregation state of `_updateChangeDependencies`:
`needs_changes` and `needed_by_changes` are the two Python sets of
reference strings (kept in insertion order here), the other four are the
lists returned in the extra dict. -/
structure DepLists where
  needs_changes : List (ℕ × ℕ)
  git_needs_changes : List (ℕ × ℕ)
  compat_needs_changes : List (ℕ × ℕ)
  needed_by_changes : List (ℕ × ℕ)
  git_needed_by_changes : List (ℕ × ℕ)
  compat_needed_by_changes : List (ℕ × ℕ)
deriving DecidableEq

/-- The initial aggregation state: all sets and lists empty. -/
def DepLists.empty : DepLists := ⟨[], [], [], [], [], []⟩

/-- Python equality between a fetched change object and one reference
string held in `needs_changes` or `needed_by_changes`: a GerritChange
never compares equal to a str, so this is constantly false. -/
def changeEqRef (_dep : DepChange) (_r : ℕ × ℕ) : Bool :=
  false

/-- The membership test `dep in needs_changes` (or `needed_by_changes`)
as written in the source: the sets hold `ChangeKey.reference` strings
while `dep` is the fetched change object, so the test never succeeds. -/
def changeInRefSet (dep : DepChange) (refs : List (ℕ × ℕ)) : Bool :=
  refs.any (changeEqRef dep)

/-- Add a reference to `git_needs_changes` and to the needs set. -/
def addGitNeeds (st : DepLists) (d : ℕ × ℕ) : DepLists :=
  { st with git_needs_changes := st.git_needs_changes ++ [d],
            needs_changes := st.needs_changes ++ [d] }

/-- Add a reference to `compat_needs_changes` and to the needs set. -/
def addCompatNeeds (st : DepLists) (d : ℕ × ℕ) : DepLists :=
  { st with compat_needs_changes := st.compat_needs_changes ++ [d],
            needs_changes := st.needs_changes ++ [d] }

/-- Add a reference to `git_needed_by_changes` and to the needed-by
set. -/
def addGitNeededBy (st : DepLists) (d : ℕ × ℕ) : DepLists :=
  { st with git_needed_by_changes := st.git_needed_by_changes ++ [d],
            needed_by_changes := st.needed_by_changes ++ [d] }

/-- Add a reference to `compat_needed_by_changes` and to the needed-by
set. -/
def addCompatNeededBy (st : DepLists) (d : ℕ × ℕ) : DepLists :=
  { st with compat_needed_by_changes := st.compat_needed_by_changes ++ [d],
            needed_by_changes := st.needed_by_changes ++ [d] }

/-- The git dependency block (`data.depends_on`): fetched outside any
try clause, so every exception propagates; the dependency is recorded
unless it is already merged. -/
def gitDependsStep (fetch : ℕ × ℕ → DepFetch) (dOpt : Option (ℕ × ℕ))
    (st : DepLists) : Except GerritError DepLists :=
  match dOpt with
  | none => .ok st
  | some d =>
    match fetch d with
    | .procExc => .error .processing
    | .exc => .error .generic
    | .ok dep =>
      if !dep.is_merged && !(changeInRefSet dep st.needs_changes) then
        .ok (addGitNeeds st d)
      else .ok st

/-- The commit-message Depends-On loop: fetched outside any try clause;
an open dependency is recorded in the needs set. -/
def commitDependsLoop (fetch : ℕ × ℕ → DepFetch) :
    List (ℕ × ℕ) → DepLists → Except GerritError DepLists
  | [], st => .ok st
  | d :: rest, st =>
    match fetch d with
    | .procExc => .error .processing
    | .exc => .error .generic
    | .ok dep =>
      if dep.isOpen && !(changeInRefSet dep st.needs_changes) then
        commitDependsLoop fetch rest (addCompatNeeds st d)
      else commitDependsLoop fetch rest st

/-- The git needed-by loop (`data.needed_by`): the body is inside
try/except, so a GerritEventProcessingException is re-raised while any
other exception is logged and the target skipped; an open,
current-patchset dependency is recorded in the needed-by set. -/
def gitNeededByLoop (fetch : ℕ × ℕ → DepFetch) :
    List (ℕ × ℕ) → DepLists → Except GerritError DepLists
  | [], st => .ok st
  | d :: rest, st =>
    match fetch d with
    | .procExc => .error .processing
    | .exc => gitNeededByLoop fetch rest st
    | .ok dep =>
      if dep.isOpen && dep.is_current_patchset &&
          !(changeInRefSet dep st.needed_by_changes) then
        gitNeededByLoop fetch rest (addGitNeededBy st d)
      else gitNeededByLoop fetch rest st

/-- The commit-message needed-by loop (`_getNeededByFromCommit`): same
exception handling and guards as the git needed-by loop, recording into
the compat list. -/
def commitNeededByLoop (fetch : ℕ × ℕ → DepFetch) :
    List (ℕ × ℕ) → DepLists → Except GerritError DepLists
  | [], st => .ok st
  | d :: rest, st =>
    match fetch d with
    | .procExc => .error .processing
    | .exc => commitNeededByLoop fetch rest st
    | .ok dep =>
      if dep.isOpen && dep.is_current_patchset &&
          !(changeInRefSet dep st.needed_by_changes) then
        commitNeededByLoop fetch rest (addCompatNeededBy st d)
      else commitNeededByLoop fetch rest st

/-- The needs-set half of one submitted-together iteration:
`if dep.open and dep not in needs_changes`, then append the reference to
`compat_needs_changes` and the needs set. -/
def stepNeeds (d : ℕ × ℕ) (dep : DepChange) (st : DepLists) : DepLists :=
  if dep.isOpen && !(changeInRefSet dep st.needs_changes) then
    addCompatNeeds st d
  else st

/-- The needed-by half of one submitted-together iteration:
`if dep.open and dep.is_current_patchset and dep not in
needed_by_changes`, then append the reference to
`compat_needed_by_changes` and the needed-by set. -/
def stepNeededBy (d : ℕ × ℕ) (dep : DepChange) (st : DepLists) : DepLists :=
  if dep.isOpen && dep.is_current_patchset &&
      !(changeInRefSet dep st.needed_by_changes) then
    addCompatNeededBy st d
  else st

/-- One successful submitted-together iteration: the needs half runs
first, then the needed-by half on the updated state. -/
def submittedTogetherStep (d : ℕ × ℕ) (dep : DepChange) (st : DepLists) :
    DepLists :=
  stepNeededBy d dep (stepNeeds d dep st)

/-- The submitted-together loop (`_getSubmittedTogether` targets): the
body is inside try/except like the needed-by loops; each target is
treated as both a dependency and a reverse dependency so that an atomic
submit bundle forms a cycle. -/
def submittedTogetherLoop (fetch : ℕ × ℕ → DepFetch) :
    List (ℕ × ℕ) → DepLists → Except GerritError DepLists
  | [], st => .ok st
  | d :: rest, st =>
    match fetch d with
    | .procExc => .error .processing
    | .exc => submittedTogetherLoop fetch rest st
    | .ok dep => submittedTogetherLoop fetch rest (submittedTogetherStep d dep st)

/-- The dependency lists of one change as gathered by
`GerritConnection._updateChangeDependencies` for an unmerged change:
`depends_on` and `needed_by` come from the parsed change data, the other
three lists from the auxiliary queries `_getDependsOnFromCommit`,
`_getNeededByFromCommit` and `_getSubmittedTogether`; each target is
resolved by a recursive `_getChange` whose outcome `fetch` supplies (the
refresh flag of the recursive call and the shared history list do not
change which references are recorded and are absorbed into `fetch`). -/
structure ChangeDepData where
  depends_on : Option (ℕ × ℕ)
  needed_by : List (ℕ × ℕ)
  commit_depends_on : List (ℕ × ℕ)
  commit_needed_by : List (ℕ × ℕ)
  submitted_together : List (ℕ × ℕ)
deriving DecidableEq

/-- `GerritConnection._updateChangeDependencies`: the five dependency
sources processed in program order, propagating exceptions exactly as
each region does. -/
def updateChangeDependencies (fetch : ℕ × ℕ → DepFetch)
    (data : ChangeDepData) : Except GerritError DepLists :=
  match gitDependsStep fetch data.depends_on DepLists.empty with
  | .error e => .error e
  | .ok st =>
    match commitDependsLoop fetch data.commit_depends_on st with
    | .error e => .error e
    | .ok st =>
      match gitNeededByLoop fetch data.needed_by st with
      | .error e => .error e
      | .ok st =>
        match commitNeededByLoop fetch data.commit_needed_by st with
        | .error e => .error e
        | .ok st => submittedTogetherLoop fetch data.submitted_together st

/-! ## GerritConnection._updateChange: history and dependency limit -/

/-- The identity fields the history check of `_updateChange` compares:
`number` and `patchset` of the change being updated, each possibly None
(an event can arrive without a patchset).  Python keeps them as
non-empty strings when present, so an Option captures both the value and
the truthiness tests. -/
structure ChangeId where
  number : Option ℕ
  patchset : Option ℕ
deriving DecidableEq

/-- Python truthiness of the `history` argument, which is either None or
a list of previously visited changes. -/
def histTruthy : Option (List ChangeId) → Bool
  | none => false
  | some l => !l.isEmpty

/-- The underlying list of a possibly-None history. -/
def histList : Option (List ChangeId) → List ChangeId
  | none => []
  | some l => l

/-- What a call of `_updateChange` decides to do before touching the
source. -/
inductive UpdateDecision
  | fromHistory (c : ChangeId)
  | tooManyDeps
  | proceed
deriving DecidableEq

/-- The decision of one `_updateChange` call together with its
frame-local effects: `sourceQueries` counts the direct `queryChange`
call and `cacheWrites` the direct `updateChangeWithRetry` call of this
frame, both of which happen exactly when the call proceeds past the two
checks. -/
structure UpdateStep where
  decision : UpdateDecision
  sourceQueries : ℕ
  cacheWrites : ℕ
deriving DecidableEq

/-- The entry checks of `GerritConnection._updateChange`: first, when
`history and change.number and change.patchset` hold and some history
entry has the same number and patchset, that entry is returned; second,
when `max_dependencies is not None and history and len(history) >
max_dependencies`, a too-many-dependencies
GerritEventProcessingException is raised; otherwise the call proceeds to
`queryChange`, dependency resolution and the cache write. -/
def updateChangeStep (max_dependencies : Option ℕ) (change : ChangeId)
    (history : Option (List ChangeId)) : UpdateStep :=
  match
    (if histTruthy history && change.number.isSome && change.patchset.isSome
     then (histList history).find? (fun hc =>
       hc.number == change.number && hc.patchset == change.patchset)
     else none) with
  | some hc => ⟨.fromHistory hc, 0, 0⟩
  | none =>
    match max_dependencies with
    | some m =>
      if histTruthy history && decide ((histList history).length > m) then
        ⟨.tooManyDeps, 0, 0⟩
      else ⟨.proceed, 1, 1⟩
    | none => ⟨.proceed, 1, 1⟩

/-! ## Gerrit event connector: processing loop

Embedding of `GerritEventConnector._run`: `for event in
self.event_queue` runs `_handleEvent(event)` inside try / except
GerritEventProcessingException / finally ack.  A processing exception is
logged at warning and the loop continues with the next event; any other
exception propagates out of the for loop (aborting it), but the finally
clause acks the current event first. -/

/-- What handling one event does: returns normally, raises
GerritEventProcessingException, or raises any other exception. -/
inductive HandleOutcome
  | ok
  | procExc
  | otherExc
deriving DecidableEq

/-- Observable behaviour of one pass of `_run` over the queue: the
events taken from the queue in order, the events acked in order, and
whether an exception aborted the for loop. -/
structure ConnectorRun where
  consumed : List ℕ
  acked : List ℕ
  aborted : Bool
deriving DecidableEq

/-- `GerritEventConnector._run` over a queue of events (named by
identifiers) paired with the outcome of handling each. -/
def connectorRun : List (ℕ × HandleOutcome) → ConnectorRun
  | [] => ⟨[], [], false⟩
  | (e, o) :: rest =>
    match o with
    | .otherExc => ⟨[e], [e], true⟩
    | .ok =>
      let r := connectorRun rest
      ⟨e :: r.consumed, e :: r.acked, r.aborted⟩
    | .procExc =>
      let r := connectorRun rest
      ⟨e :: r.consumed, e :: r.acked, r.aborted⟩

/-! ## Executor build-request queues (zuul/zk/executor.py)

`ExecutorQueue.lostRequests` filters `inState(RUNNING, PAUSED)` by
`isLocked`; `ExecutorApi.lostRequests` chains the per-zone generators.
`JobRequestQueue.inState` and `JobRequestQueue.isLocked` are not among
the provided sources and are modelled from the spec. -/

/-- States of a build request, from the spec (section 4.6): requested,
running, paused, completed; `hold` supports holding requests in tests
(`ExecutorQueue.initial_state`). -/
inductive BuildRequestState
  | requested
  | hold
  | running
  | paused
  | completed
deriving DecidableEq

/-- A build request as stored in one zone queue, with the fields the
claims need: its state and whether some client currently holds its
lock. -/
structure BuildRequest where
  id : ℕ
  state : BuildRequestState
  locked : Bool
deriving DecidableEq

namespace ExecutorQueue

/-- Modelled from the spec: `JobRequestQueue.inState` (not in the
provided sources) returns the cached requests of the queue whose state
is one of the given states. -/
def inState (queue : List BuildRequest) (states : List BuildRequestState) :
    List BuildRequest :=
  queue.filter (fun b => b.state ∈ states)

/-- Modelled from the spec: `JobRequestQueue.isLocked` (not in the
provided sources) reports whether some client holds the lock of the
request. -/
def isLocked (b : BuildRequest) : Bool :=
  b.locked

/-- `ExecutorQueue.lostRequests`: the requests which are running or
paused but not locked by any client. -/
def lostRequests (queue : List BuildRequest) : List BuildRequest :=
  (inState queue [.running, .paused]).filter (fun b => !isLocked b)

end ExecutorQueue

namespace ExecutorApi

/-- `ExecutorApi.lostRequests`: chain `ExecutorQueue.lostRequests` over
all zone queues (the unzoned queue is one of them). -/
def lostRequests (zones : List (List BuildRequest)) : List BuildRequest :=
  (zones.map ExecutorQueue.lostRequests).flatten

end ExecutorApi

end Zuul

/-- C1: for every connection event handled by the Gerrit event connector,
the sleep before delivery is exactly max((timestamp + 10) - now, 0); hence
the derived trigger event becomes visible no earlier than 10 seconds after
the event timestamp, and an event whose timestamp lies more than 10
seconds in the past incurs zero additional delay. -/
theorem gerrit_settling_delay_floor (timestamp now : ℚ) :
    Zuul.GerritEventConnector.handleEventDelay timestamp now =
      max ((timestamp + 10) - now) 0 ∧
    timestamp + 10 ≤ Zuul.GerritEventConnector.deliveryTime timestamp now ∧
    (now - timestamp > 10 →
      Zuul.GerritEventConnector.handleEventDelay timestamp now = 0) := by
  refine ⟨rfl, ?_, ?_⟩
  · unfold Zuul.GerritEventConnector.deliveryTime
      Zuul.GerritEventConnector.handleEventDelay
      Zuul.GerritEventConnector.delay
    rcases le_total (timestamp + 10 - now) 0 with h | h
    · rw [max_eq_right h]; linarith
    · rw [max_eq_left h]; linarith
  · intro h
    unfold Zuul.GerritEventConnector.handleEventDelay
      Zuul.GerritEventConnector.delay
    rw [max_eq_right (by linarith)]

/-- C1 witness: an event received 20 seconds after its timestamp is
delivered with zero additional delay. -/
theorem gerrit_settling_delay_floor_witness :
    Zuul.GerritEventConnector.handleEventDelay 0 20 = 0 :=
  (gerrit_settling_delay_floor 0 20).2.2 (by norm_num)

/-- UTF-8 length of a constant message. -/
theorem Zuul.utf8Len_replicate (n c : ℕ) :
    Zuul.utf8Len (List.replicate n c) = n * Zuul.utf8CharLen c := by
  simp [Zuul.utf8Len, List.map_replicate, List.sum_replicate, smul_eq_mul]

/-- UTF-8 length distributes over concatenation. -/
theorem Zuul.utf8Len_append (a b : List ℕ) :
    Zuul.utf8Len (a ++ b) = Zuul.utf8Len a + Zuul.utf8Len b := by
  simp [Zuul.utf8Len]

/-- C5: the code slices the message by characters while the limit counts
UTF-8 bytes, so a message of 16 056 copies of code point U+00A2 (two
UTF-8 bytes each, 32 112 bytes in total, hence at the limit) is truncated
to a message of 32 087 UTF-8 bytes, which still exceeds the 16 056-byte
limit; the delivered message is not brought under the limit as the spec
requires. -/
theorem gerrit_truncated_message_exceeds_limit :
    Zuul.utf8Len (List.replicate 16056 162) = 32112 ∧
    Zuul.GERRIT_HUMAN_MESSAGE_LIMIT ≤ 32112 ∧
    Zuul.utf8Len (Zuul.applyGerritMessageLimit (List.replicate 16056 162))
      = 32087 ∧
    Zuul.GERRIT_HUMAN_MESSAGE_LIMIT < 32087 := by
  have hchar : Zuul.utf8CharLen 162 = 2 := by decide
  have hlen : Zuul.utf8Len (List.replicate 16056 162) = 32112 := by
    rw [Zuul.utf8Len_replicate, hchar]
  refine ⟨hlen, by norm_num [Zuul.GERRIT_HUMAN_MESSAGE_LIMIT], ?_, by
    norm_num [Zuul.GERRIT_HUMAN_MESSAGE_LIMIT]⟩
  rw [Zuul.applyGerritMessageLimit, hlen]
  rw [if_pos (by norm_num [Zuul.GERRIT_HUMAN_MESSAGE_LIMIT])]
  rw [Zuul.utf8Len_append, List.take_replicate, Zuul.utf8Len_replicate, hchar]
  have hmarker : Zuul.utf8Len Zuul.truncationMarker = 15 := by decide
  rw [hmarker]
  norm_num [Zuul.GERRIT_HUMAN_MESSAGE_LIMIT]

/-- Sleeps of the query retry loop: at most three, each one second, and
no exception ever propagates (the re-raise guard `attempt >= 3` can
never hold). -/
theorem Zuul.queryChange_sleep_shape {α : Type} (f : ℕ → Option α) :
    (Zuul.queryChange f).2.length ≤ 3 ∧
    (∀ s ∈ (Zuul.queryChange f).2, s = 1) ∧
    (Zuul.queryChange f).1 ≠ .error () := by
  rcases h0 : f 0 with _ | d0 <;> rcases h1 : f 1 with _ | d1 <;>
    rcases h2 : f 2 with _ | d2 <;>
    simp [Zuul.queryChange, Zuul.queryChangeGo, h0, h1, h2]

/-- The reporter retry loop makes at most three attempts. -/
theorem Zuul.reviewRetryLoop_attempts_le (g : ℕ → Zuul.PostOutcome) (b : ℕ) :
    (Zuul.reviewRetryLoop g b).attempts ≤ 3 := by
  rcases h1 : g 1 <;> rcases h2 : g 2 <;> rcases h3 : g 3 <;>
    simp [Zuul.reviewRetryLoop, Zuul.reviewRetryGo, h1, h2, h3]

/-- C6 amended: transient failures are retried up to 3 attempts for both
the change query and the report, but the backoff is not exponential and
the error is not surfaced after the cap: the query loop sleeps a
constant 1 second after each failed attempt and, when all three fail,
returns None without raising; the report loop sleeps
x * submit_retry_backoff seconds after failed attempt x (10 s, 20 s,
30 s by default) and, when all three fail, returns normally with the
error logged and swallowed. -/
theorem gerrit_retry_bounded_amended {α : Type} (f : ℕ → Option α)
    (g : ℕ → Zuul.PostOutcome) (b : ℕ) :
    (Zuul.queryChange f).2.length ≤ 3 ∧
    (∀ s ∈ (Zuul.queryChange f).2, s = 1) ∧
    (Zuul.queryChange f).1 ≠ .error () ∧
    (f 0 = none → f 1 = none → f 2 = none →
      Zuul.queryChange f = (.ok none, [1, 1, 1])) ∧
    (Zuul.reviewRetryLoop g b).attempts ≤ 3 ∧
    ((∀ x, g x = .err) →
      Zuul.reviewRetryLoop g b = ⟨3, [b, 2 * b, 3 * b], .exhausted⟩) := by
  obtain ⟨hl, hs, he⟩ := Zuul.queryChange_sleep_shape f
  refine ⟨hl, hs, he, ?_, Zuul.reviewRetryLoop_attempts_le g b, ?_⟩
  · intro h0 h1 h2
    simp [Zuul.queryChange, Zuul.queryChangeGo, h0, h1, h2]
  · intro hg
    simp [Zuul.reviewRetryLoop, Zuul.reviewRetryGo, hg 1, hg 2, hg 3]

/-- C6 witness: with every attempt failing the query loop returns None
after sleeping 1, 1, 1 seconds, and with backoff 1 the report loop
sleeps 1, 2, 3 seconds and exits normally. -/
theorem gerrit_retry_bounded_amended_witness :
    Zuul.queryChange (fun _ => (none : Option Unit)) = (.ok none, [1, 1, 1]) ∧
    Zuul.reviewRetryLoop (fun _ => .err) 1 = ⟨3, [1, 2, 3], .exhausted⟩ := by
  have h := gerrit_retry_bounded_amended (fun _ => (none : Option Unit))
    (fun _ => .err) 1
  refine ⟨h.2.2.2.1 rfl rfl rfl, ?_⟩
  have h2 := h.2.2.2.2.2 (fun _ => rfl)
  simpa using h2

/-- C6 counterexample: the claimed schedule (exponential 1 s, 2 s, 4 s;
error surfaced after the cap) is false on the code: with every attempt
failing, the query loop sleeps a constant 1, 1, 1 seconds and returns
None without raising, and the report loop sleeps 10, 20, 30 seconds
(x * submit_retry_backoff) and swallows the error. -/
theorem gerrit_retry_backoff_counterexample :
    Zuul.queryChange (fun _ => (none : Option ℕ)) = (.ok none, [1, 1, 1]) ∧
    (Zuul.queryChange (fun _ => (none : Option ℕ))).2 ≠ [1, 2, 4] ∧
    Zuul.reviewRetryLoop (fun _ => .err) Zuul.submit_retry_backoff =
      ⟨3, [10, 20, 30], .exhausted⟩ ∧
    (Zuul.reviewRetryLoop (fun _ => .err) Zuul.submit_retry_backoff).sleeps
      ≠ [1, 2, 4] := by
  refine ⟨rfl, by decide, rfl, by decide⟩

/-- C7: a GET or POST whose response has status 409 raises
HTTPConflictException at once, and a reporter retry loop (in particular
the phase-2 merge submit of review_http) that receives a conflict stops
immediately: it breaks out of the loop after that attempt, with no
further attempt, no sleep and no exception propagated (the conflict is
logged as change-may-already-be-merged). -/
theorem gerrit_conflict_not_retried :
    Zuul.classifyGet 409 = .conflictExc ∧
    Zuul.classifyPost 409 = .conflictExc ∧
    (∀ (g : ℕ → Zuul.PostOutcome) (b : ℕ), g 1 = .conflict →
      Zuul.reviewRetryLoop g b = ⟨1, [], .conflictBreak⟩) ∧
    (∀ (g : ℕ → Zuul.PostOutcome) (b : ℕ), g 1 = .err → g 2 = .conflict →
      Zuul.reviewRetryLoop g b = ⟨2, [b], .conflictBreak⟩) := by
  refine ⟨rfl, rfl, ?_, ?_⟩
  · intro g b h1
    simp [Zuul.reviewRetryLoop, Zuul.reviewRetryGo, h1]
  · intro g b h1 h2
    simp [Zuul.reviewRetryLoop, Zuul.reviewRetryGo, h1, h2]

/-- C7 witness: a phase-2 submit loop whose first attempt hits a 409
makes exactly one attempt and exits via the conflict break. -/
theorem gerrit_conflict_not_retried_witness :
    Zuul.reviewRetryLoop (fun _ => .conflict) Zuul.submit_retry_backoff =
      ⟨1, [], .conflictBreak⟩ :=
  gerrit_conflict_not_retried.2.2.1 (fun _ => .conflict)
    Zuul.submit_retry_backoff rfl

/-- C8: in the event connector processing loop, the acked events are
exactly the consumed events (each consumed event is acked exactly once,
in order, via the finally clause even when handling raised), and when no
event raises an exception other than GerritEventProcessingException the
loop is never aborted and consumes the whole queue; in particular a
processing exception does not abort the loop. -/
theorem connector_acks_every_consumed_event
    (events : List (ℕ × Zuul.HandleOutcome)) :
    (Zuul.connectorRun events).acked = (Zuul.connectorRun events).consumed ∧
    ((∀ p ∈ events, p.2 ≠ Zuul.HandleOutcome.otherExc) →
      (Zuul.connectorRun events).aborted = false ∧
      (Zuul.connectorRun events).consumed = events.map Prod.fst) := by
  induction events with
  | nil => exact ⟨rfl, fun _ => ⟨rfl, rfl⟩⟩
  | cons head tail ih =>
    obtain ⟨e, o⟩ := head
    cases o with
    | ok =>
      refine ⟨by simp [Zuul.connectorRun, ih.1], ?_⟩
      intro h
      have ht : ∀ p ∈ tail, p.2 ≠ Zuul.HandleOutcome.otherExc :=
        fun p hp => h p (List.mem_cons_of_mem _ hp)
      have h2 := ih.2 ht
      simp [Zuul.connectorRun, h2.1, h2.2]
    | procExc =>
      refine ⟨by simp [Zuul.connectorRun, ih.1], ?_⟩
      intro h
      have ht : ∀ p ∈ tail, p.2 ≠ Zuul.HandleOutcome.otherExc :=
        fun p hp => h p (List.mem_cons_of_mem _ hp)
      have h2 := ih.2 ht
      simp [Zuul.connectorRun, h2.1, h2.2]
    | otherExc =>
      refine ⟨rfl, ?_⟩
      intro h
      exact absurd rfl (h (e, Zuul.HandleOutcome.otherExc)
        (List.mem_cons_self _ _))

/-- C8 witness: a queue whose second event raises a processing exception
is consumed in full, every consumed event is acked, and the loop is not
aborted. -/
theorem connector_acks_every_consumed_event_witness :
    (Zuul.connectorRun [(1, .ok), (2, .procExc), (3, .ok)]).acked =
      (Zuul.connectorRun [(1, .ok), (2, .procExc), (3, .ok)]).consumed ∧
    (Zuul.connectorRun [(1, .ok), (2, .procExc), (3, .ok)]).aborted = false ∧
    (Zuul.connectorRun [(1, .ok), (2, .procExc), (3, .ok)]).consumed
      = [1, 2, 3] := by
  have h := connector_acks_every_consumed_event
    [(1, .ok), (2, .procExc), (3, .ok)]
  have h2 := h.2 (by decide)
  exact ⟨h.1, h2.1, h2.2⟩

/-- C9: across every zone queue, lostRequests yields exactly the build
requests whose state is running or paused and which hold no lock. -/
theorem executor_lostRequests_spec (zones : List (List Zuul.BuildRequest))
    (r : Zuul.BuildRequest) :
    r ∈ Zuul.ExecutorApi.lostRequests zones ↔
      ((∃ q ∈ zones, r ∈ q) ∧
       (r.state = .running ∨ r.state = .paused) ∧
       r.locked = false) := by
  simp only [Zuul.ExecutorApi.lostRequests, Zuul.ExecutorQueue.lostRequests,
    Zuul.ExecutorQueue.inState, Zuul.ExecutorQueue.isLocked]
  constructor
  · intro hr
    rcases List.mem_flatten.mp hr with ⟨l, hl, hrl⟩
    rcases List.mem_map.mp hl with ⟨q, hq, rfl⟩
    rcases List.mem_filter.mp hrl with ⟨hin, hlock⟩
    rcases List.mem_filter.mp hin with ⟨hrq, hstate⟩
    refine ⟨⟨q, hq, hrq⟩, ?_, ?_⟩
    · simpa using of_decide_eq_true hstate
    · simpa using hlock
  · rintro ⟨⟨q, hq, hrq⟩, hstate, hlock⟩
    refine List.mem_flatten.mpr ⟨_, List.mem_map.mpr ⟨q, hq, rfl⟩, ?_⟩
    refine List.mem_filter.mpr ⟨List.mem_filter.mpr ⟨hrq, ?_⟩, ?_⟩
    · exact decide_eq_true (by simpa using hstate)
    · simpa using hlock

/-- C10: getChangeByURLWithRetry always invokes getChangeByURL exactly
three times; it returns the value of the third invocation (so a URL on
which every invocation succeeds is fetched three times and the third
result is returned), sleeps 1 second after a failed first or second
invocation and retries, and propagates an exception exactly when the
third invocation fails. -/
theorem getChangeByURLWithRetry_spec {α : Type} (fetch : ℕ → Except Unit α) :
    Zuul.getChangeByURLWithRetry fetch =
      (Except.map some (fetch 2), 3,
        (match fetch 0 with | .ok _ => [] | .error _ => [1]) ++
        (match fetch 1 with | .ok _ => [] | .error _ => [1])) := by
  rcases h0 : fetch 0 with e0 | v0 <;> rcases h1 : fetch 1 with e1 | v1 <;>
    rcases h2 : fetch 2 with e2 | v2 <;>
    simp [Zuul.getChangeByURLWithRetry, Zuul.sourceRetryGo, h0, h1, h2,
      Except.map]

/-- The change-object-in-reference-set test never succeeds. -/
theorem Zuul.changeInRefSet_eq_false (dep : Zuul.DepChange)
    (refs : List (ℕ × ℕ)) : Zuul.changeInRefSet dep refs = false := by
  simp [Zuul.changeInRefSet, List.any_eq_false, Zuul.changeEqRef]

/-- Needs set after the needs half of a submitted-together iteration. -/
theorem Zuul.stepNeeds_needs (d : ℕ × ℕ) (dep : Zuul.DepChange)
    (st : Zuul.DepLists) :
    (Zuul.stepNeeds d dep st).needs_changes =
      if dep.isOpen then st.needs_changes ++ [d] else st.needs_changes := by
  simp only [Zuul.stepNeeds, Zuul.changeInRefSet_eq_false, Bool.not_false,
    Bool.and_true]
  cases dep.isOpen <;> simp [Zuul.addCompatNeeds]

/-- The needs half leaves the needed-by set unchanged. -/
theorem Zuul.stepNeeds_needed_by (d : ℕ × ℕ) (dep : Zuul.DepChange)
    (st : Zuul.DepLists) :
    (Zuul.stepNeeds d dep st).needed_by_changes = st.needed_by_changes := by
  unfold Zuul.stepNeeds
  split <;> simp [Zuul.addCompatNeeds]

/-- Needed-by set after the needed-by half of a submitted-together
iteration. -/
theorem Zuul.stepNeededBy_needed_by (d : ℕ × ℕ) (dep : Zuul.DepChange)
    (st : Zuul.DepLists) :
    (Zuul.stepNeededBy d dep st).needed_by_changes =
      if dep.isOpen && dep.is_current_patchset then
        st.needed_by_changes ++ [d]
      else st.needed_by_changes := by
  simp only [Zuul.stepNeededBy, Zuul.changeInRefSet_eq_false, Bool.not_false,
    Bool.and_true]
  cases dep.isOpen <;> cases dep.is_current_patchset <;>
    simp [Zuul.addCompatNeededBy]

/-- The needed-by half leaves the needs set unchanged. -/
theorem Zuul.stepNeededBy_needs (d : ℕ × ℕ) (dep : Zuul.DepChange)
    (st : Zuul.DepLists) :
    (Zuul.stepNeededBy d dep st).needs_changes = st.needs_changes := by
  unfold Zuul.stepNeededBy
  split <;> simp [Zuul.addCompatNeededBy]

/-- A successful submitted-together loop only grows the needs and
needed-by sets. -/
theorem Zuul.submittedTogetherLoop_mono (fetch : ℕ × ℕ → Zuul.DepFetch)
    (l : List (ℕ × ℕ)) :
    ∀ st st' : Zuul.DepLists,
      Zuul.submittedTogetherLoop fetch l st = .ok st' →
      (∀ x ∈ st.needs_changes, x ∈ st'.needs_changes) ∧
      (∀ x ∈ st.needed_by_changes, x ∈ st'.needed_by_changes) := by
  induction l with
  | nil =>
    intro st st' h
    simp only [Zuul.submittedTogetherLoop, Except.ok.injEq] at h
    subst h
    exact ⟨fun x hx => hx, fun x hx => hx⟩
  | cons d rest ih =>
    intro st st' h
    rw [Zuul.submittedTogetherLoop] at h
    cases hf : fetch d with
    | procExc => rw [hf] at h; exact absurd h (by simp)
    | exc => rw [hf] at h; exact ih st st' h
    | ok dep =>
      rw [hf] at h
      obtain ⟨h1, h2⟩ := ih _ st' h
      refine ⟨fun x hx => h1 x ?_, fun x hx => h2 x ?_⟩
      · rw [Zuul.submittedTogetherStep, Zuul.stepNeededBy_needs,
          Zuul.stepNeeds_needs]
        split <;> simp [hx]
      · rw [Zuul.submittedTogetherStep, Zuul.stepNeededBy_needed_by,
          Zuul.stepNeeds_needed_by]
        split <;> simp [hx]

/-- Any target of a successful submitted-together loop whose fetched
change is open lands in the needs set, and also in the needed-by set
when it is at its current patchset. -/
theorem Zuul.submittedTogetherLoop_mem (fetch : ℕ × ℕ → Zuul.DepFetch)
    (l : List (ℕ × ℕ)) :
    ∀ (st st' : Zuul.DepLists) (d : ℕ × ℕ) (dep : Zuul.DepChange),
      Zuul.submittedTogetherLoop fetch l st = .ok st' →
      d ∈ l → fetch d = .ok dep → dep.isOpen = true →
      d ∈ st'.needs_changes ∧
      (dep.is_current_patchset = true → d ∈ st'.needed_by_changes) := by
  induction l with
  | nil =>
    intro st st' d dep _ hd
    exact absurd hd (List.not_mem_nil d)
  | cons d0 rest ih =>
    intro st st' d dep h hd hf hopen
    rw [Zuul.submittedTogetherLoop] at h
    rcases List.mem_cons.mp hd with rfl | hdrest
    · rw [hf] at h
      obtain ⟨h1, h2⟩ := Zuul.submittedTogetherLoop_mono fetch rest _ st' h
      constructor
      · apply h1
        rw [Zuul.submittedTogetherStep, Zuul.stepNeededBy_needs,
          Zuul.stepNeeds_needs, hopen]
        simp
      · intro hcur
        apply h2
        rw [Zuul.submittedTogetherStep, Zuul.stepNeededBy_needed_by,
          Zuul.stepNeeds_needed_by, hopen, hcur]
        simp
    · cases hf0 : fetch d0 with
      | procExc => rw [hf0] at h; exact absurd h (by simp)
      | exc => rw [hf0] at h; exact ih st st' d dep h hdrest hf hopen
      | ok dep0 => rw [hf0] at h; exact ih _ st' d dep h hdrest hf hopen

/-- A successful run of the whole dependency resolution ends with a
successful submitted-together loop from some intermediate state. -/
theorem Zuul.updateChangeDependencies_subtog (fetch : ℕ × ℕ → Zuul.DepFetch)
    (data : Zuul.ChangeDepData) (st' : Zuul.DepLists)
    (h : Zuul.updateChangeDependencies fetch data = .ok st') :
    ∃ st, Zuul.submittedTogetherLoop fetch data.submitted_together st
      = .ok st' := by
  unfold Zuul.updateChangeDependencies at h
  split at h
  · exact absurd h (by simp)
  · split at h
    · exact absurd h (by simp)
    · split at h
      · exact absurd h (by simp)
      · split at h
        · exact absurd h (by simp)
        · exact ⟨_, h⟩

/-- C2 amended: during dependency resolution of an unmerged change, a
submitted-together target whose recursive fetch succeeds is added to the
needs set of the change when the target is open, and additionally to the
needed-by set when it is also at its current patchset (so only
open, current-patchset bundle members close into a cycle); a target that
is not open is not recorded by the submitted-together step. -/
theorem gerrit_submitted_together_amended (fetch : ℕ × ℕ → Zuul.DepFetch)
    (data : Zuul.ChangeDepData) (st : Zuul.DepLists) (d : ℕ × ℕ)
    (dep : Zuul.DepChange)
    (hok : Zuul.updateChangeDependencies fetch data = .ok st)
    (hd : d ∈ data.submitted_together)
    (hf : fetch d = .ok dep)
    (hopen : dep.isOpen = true) :
    d ∈ st.needs_changes ∧
    (dep.is_current_patchset = true → d ∈ st.needed_by_changes) := by
  obtain ⟨st0, hloop⟩ := Zuul.updateChangeDependencies_subtog fetch data st hok
  exact Zuul.submittedTogetherLoop_mem fetch data.submitted_together st0 st
    d dep hloop hd hf hopen

/-- C2 witness: a single open, current-patchset submitted-together
target (2,1) ends up in both the needs set and the needed-by set. -/
theorem gerrit_submitted_together_amended_witness :
    (2, 1) ∈ (Zuul.DepLists.mk [(2, 1)] [] [(2, 1)] [(2, 1)] [] [(2, 1)]
      ).needs_changes ∧
    (2, 1) ∈ (Zuul.DepLists.mk [(2, 1)] [] [(2, 1)] [(2, 1)] [] [(2, 1)]
      ).needed_by_changes := by
  have h := gerrit_submitted_together_amended
    (fun _ => .ok ⟨true, false, true⟩)
    ⟨none, [], [], [], [(2, 1)]⟩
    (Zuul.DepLists.mk [(2, 1)] [] [(2, 1)] [(2, 1)] [] [(2, 1)])
    (2, 1) ⟨true, false, true⟩ rfl (by decide) rfl rfl
  exact ⟨h.1, h.2 rfl⟩

/-- C2 counterexample: a submitted-together target of an unmerged change
whose own change is no longer open (here already merged) is added to
neither the needs set nor the needed-by set: the resolution returns with
all six lists empty, so the claim that every submitted-together target
is added to both sets is false. -/
theorem gerrit_submitted_together_counterexample :
    Zuul.updateChangeDependencies (fun _ => .ok ⟨false, true, true⟩)
      ⟨none, [], [], [], [(2, 1)]⟩ = .ok ⟨[], [], [], [], [], []⟩ := by
  rfl

/-- C3 counterexample: with max_dependencies = 1 and a traversal history
of length 2 that already contains the change being updated (change 1 at
patchset 1, reached again through a dependency cycle), the call does not
fail with too-many-dependencies: the history check runs first and
returns the previously visited instance, so the claim that every call
with an over-limit history fails is false. -/
theorem gerrit_max_dependencies_counterexample :
    (Zuul.histList (some [⟨some 1, some 1⟩, ⟨some 2, some 1⟩])).length > 1 ∧
    Zuul.updateChangeStep (some 1) ⟨some 1, some 1⟩
        (some [⟨some 1, some 1⟩, ⟨some 2, some 1⟩]) =
      ⟨.fromHistory ⟨some 1, some 1⟩, 0, 0⟩ ∧
    (Zuul.updateChangeStep (some 1) ⟨some 1, some 1⟩
        (some [⟨some 1, some 1⟩, ⟨some 2, some 1⟩])).decision ≠
      Zuul.UpdateDecision.tooManyDeps := by
  refine ⟨by decide, by decide, by decide⟩

/-- C3 amended: a refresh call whose traversal history is strictly
longer than the configured max_dependencies fails with the
too-many-dependencies processing exception before any source query or
cache write, unless the history already contains this change at this
revision, in which case the previously visited instance is returned
without failing; when max_dependencies is unset no limit is enforced and
the call never raises too-many-dependencies. -/
theorem gerrit_max_dependencies_amended :
    (∀ (m : ℕ) (change : Zuul.ChangeId) (history : List Zuul.ChangeId),
      history.length > m →
      (history.find? (fun hc => hc.number == change.number &&
          hc.patchset == change.patchset) = none ∨
        change.number = none ∨ change.patchset = none) →
      Zuul.updateChangeStep (some m) change (some history) =
        ⟨.tooManyDeps, 0, 0⟩) ∧
    (∀ (change : Zuul.ChangeId) (history : Option (List Zuul.ChangeId)),
      (Zuul.updateChangeStep none change history).decision ≠
        Zuul.UpdateDecision.tooManyDeps) := by
  constructor
  · intro m change history hlen hside
    have hne : history ≠ [] := by
      intro he
      rw [he] at hlen
      exact absurd hlen (by simp)
    have ht : Zuul.histTruthy (some history) = true := by
      cases history with
      | nil => exact absurd rfl hne
      | cons a l => rfl
    have hfind :
        (if Zuul.histTruthy (some history) && change.number.isSome &&
            change.patchset.isSome
         then (Zuul.histList (some history)).find? (fun hc =>
           hc.number == change.number && hc.patchset == change.patchset)
         else none) = none := by
      rcases hside with hf | hn | hp
      · split
        · exact hf
        · rfl
      · simp [hn]
      · simp [hp]
    rw [Zuul.updateChangeStep, hfind]
    simp only [ht, Zuul.histList, Bool.true_and, decide_eq_true_eq]
    rw [if_pos]
    simpa using hlen
  · intro change history
    rw [Zuul.updateChangeStep]
    split
    · simp
    · simp

/-- C3 witness: with max_dependencies = 0 and a one-entry history not
containing the change, the call raises too-many-dependencies with no
source query and no cache write; with max_dependencies unset the same
call does not raise it. -/
theorem gerrit_max_dependencies_amended_witness :
    Zuul.updateChangeStep (some 0) ⟨some 3, some 1⟩
        (some [⟨some 1, some 1⟩]) = ⟨.tooManyDeps, 0, 0⟩ ∧
    (Zuul.updateChangeStep none ⟨some 3, some 1⟩
        (some [⟨some 1, some 1⟩])).decision ≠
      Zuul.UpdateDecision.tooManyDeps :=
  ⟨gerrit_max_dependencies_amended.1 0 ⟨some 3, some 1⟩ [⟨some 1, some 1⟩]
      (by decide) (Or.inl (by decide)),
    gerrit_max_dependencies_amended.2 ⟨some 3, some 1⟩
      (some [⟨some 1, some 1⟩])⟩

/-- C4: a refresh call whose change has a number and patchset and whose
traversal history contains an entry with that same number and patchset
returns the first such previously visited instance directly, with no
source query and no cache write in this frame. -/
theorem gerrit_update_history_cycle_safe (maxDeps : Option ℕ)
    (change : Zuul.ChangeId) (history : List Zuul.ChangeId)
    (hc : Zuul.ChangeId)
    (hne : history ≠ [])
    (hnum : change.number.isSome = true)
    (hps : change.patchset.isSome = true)
    (hfind : history.find? (fun h => h.number == change.number &&
      h.patchset == change.patchset) = some hc) :
    Zuul.updateChangeStep maxDeps change (some history) =
      ⟨.fromHistory hc, 0, 0⟩ := by
  have ht : Zuul.histTruthy (some history) = true := by
    cases history with
    | nil => exact absurd rfl hne
    | cons a l => rfl
  rw [Zuul.updateChangeStep.eq_def]
  simp only [ht, hnum, hps, Bool.and_self, Bool.true_and, if_true,
    Zuul.histList, hfind]

/-- C4 witness: updating change 1 at patchset 1 with a history that
already holds that change and revision returns the history instance with
no query and no cache write, even under a tight dependency limit. -/
theorem gerrit_update_history_cycle_safe_witness :
    Zuul.updateChangeStep (some 5) ⟨some 1, some 1⟩
        (some [⟨some 1, some 1⟩]) =
      ⟨.fromHistory ⟨some 1, some 1⟩, 0, 0⟩ :=
  gerrit_update_history_cycle_safe (some 5) ⟨some 1, some 1⟩
    [⟨some 1, some 1⟩] ⟨some 1, some 1⟩ (by decide) rfl rfl (by decide)
